import Mathlib

/-!
Verification development for the Support Agent System (src/main.py).

The file is organised as a shallow embedding:
* the data model (`SupportContext`, `ApologyCheckOutput`, tool predicates,
  tool handlers, agent configurations) is translated directly from
  src/main.py;
* the handoff controller (routing → delegation → execution → validation →
  retry/accept/fail) lives in the external agents SDK, not under src/; it is
  modelled from the spec (sections 4.1 - 4.3 and 7) as an executable state
  machine parameterised by an abstract Inference Provider.
-/

/-- Structure `SupportContext` from src/main.py lines 44-47: `name : str`,
`is_premium_user : bool = False`, `issue_type : str = None` (filled, if ever,
during triage), so `issue_type` is an optional string. -/
structure SupportContext where
  name : String
  is_premium_user : Bool := false
  issue_type : Option String := none
deriving Repr, DecidableEq

/-- Structure `ApologyCheckOutput` from src/main.py lines 51-53: the structured output
of the secondary apology classification. -/
structure ApologyCheckOutput where
  has_apology : Bool
  reasoning : String
deriving Repr, DecidableEq

/-- The value returned by the `no_apology_guardrail` function
(src/main.py lines 75-78): the classifier payload together with the
tripwire flag. -/
structure GuardrailFunctionOutput where
  output_info : ApologyCheckOutput
  tripwire_triggered : Bool
deriving Repr, DecidableEq

/-- Function `no_apology_guardrail` from src/main.py lines 68-78, abstracted over the
result of the (external) apology-classifier invocation: it returns the
classifier output as `output_info` and sets `tripwire_triggered` to the
classifier's `has_apology` field. -/
def no_apology_guardrail (classified : ApologyCheckOutput) : GuardrailFunctionOutput :=
  { output_info := classified, tripwire_triggered := classified.has_apology }

/-- A guardrail verdict passes exactly when its tripwire is not triggered
(spec section 4.3: `passed = !violationDetected`; in the SDK a triggered
tripwire aborts the candidate answer). -/
def guardrail_passed (v : GuardrailFunctionOutput) : Bool :=
  !v.tripwire_triggered

/-- Running a list of guardrails over one classifier output produces one
verdict per guardrail. -/
def run_guardrails (gs : List (ApologyCheckOutput → GuardrailFunctionOutput))
    (out : ApologyCheckOutput) : List GuardrailFunctionOutput :=
  gs.map (fun g => g out)

/-- The three function tools of src/main.py lines 82-95. -/
inductive ToolName where
  | refund
  | restart_service
  | general_info
deriving Repr, DecidableEq

/-- The `is_enabled` predicates attached to the tools in src/main.py:
line 85 (`lambda ctx: ctx.is_premium_user`), line 90
(`lambda ctx: ctx.issue_type == "technical"`), line 95 (`lambda ctx: True`). -/
def is_enabled : ToolName → SupportContext → Bool
  | ToolName.refund, ctx => ctx.is_premium_user
  | ToolName.restart_service, ctx => ctx.issue_type == some "technical"
  | ToolName.general_info, _ => true

/-- Payload returned by a tool handler. -/
structure ToolResult where
  message : String
deriving Repr, DecidableEq

/-- The `refund` handler body, src/main.py lines 82-84. The Python body only
reads `ctx`, so the state-passing embedding returns the context unchanged. -/
def refund (ctx : SupportContext) : SupportContext × ToolResult :=
  (ctx, { message := "✅ Refund for " ++ ctx.name ++ " initiated; expect 3–5 business days." })

/-- The `restart_service` handler body, src/main.py lines 87-89. -/
def restart_service (ctx : SupportContext) : SupportContext × ToolResult :=
  (ctx, { message := "✅ Service for " ++ ctx.name ++ " restarted successfully." })

/-- The `general_info` handler body, src/main.py lines 92-94. -/
def general_info (ctx : SupportContext) : SupportContext × ToolResult :=
  (ctx, { message := "🛈 How else can I assist—billing, technical, or general?" })

/-- Dispatch from a tool name to its handler. -/
def tool_handler : ToolName → SupportContext → SupportContext × ToolResult
  | ToolName.refund, ctx => refund ctx
  | ToolName.restart_service, ctx => restart_service ctx
  | ToolName.general_info, ctx => general_info ctx

/-- The tool list supplied to the runner for every invocation,
src/main.py line 174: `tools=[refund, restart_service, general_info]`. -/
def run_tools : List ToolName :=
  [ToolName.refund, ToolName.restart_service, ToolName.general_info]

/-- Modelled from the spec (section 4.2): the gated capability view for a
responder is obtained by filtering its declared capability list with each
capability's enablement predicate evaluated at the current SharedContext;
the filtering itself is performed by the external SDK, which honours the
`is_enabled` attributes set in src/main.py. -/
def gated_view (caps : List ToolName) (ctx : SupportContext) : List ToolName :=
  caps.filter (fun t => is_enabled t ctx)

/-- Agent configuration as declared in src/main.py: name, instructions,
output guardrails (as guardrail functions over the classifier output), and
handoff targets. -/
structure AgentCfg where
  name : String
  instructions : String
  output_guardrails : List (ApologyCheckOutput → GuardrailFunctionOutput)
  handoffs : List String

/-- Agent `billing_agent`, src/main.py lines 99-105. -/
def billing_agent : AgentCfg :=
  { name := "Billing Agent",
    instructions := "You are the Billing Specialist. Handle refunds, invoices, subscriptions.",
    output_guardrails := [no_apology_guardrail],
    handoffs := [] }

/-- Agent `technical_agent`, src/main.py lines 107-113. -/
def technical_agent : AgentCfg :=
  { name := "Technical Agent",
    instructions := "You are the Technical Specialist. Assist with restarts, connectivity, errors.",
    output_guardrails := [no_apology_guardrail],
    handoffs := [] }

/-- Agent `general_agent`, src/main.py lines 115-121. -/
def general_agent : AgentCfg :=
  { name := "General Agent",
    instructions := "You are the General Support Agent. Answer any general inquiries.",
    output_guardrails := [no_apology_guardrail],
    handoffs := [] }

/-- Agent `triage_agent`, src/main.py lines 125-142: the router, also guarded by
`no_apology_guardrail`, with handoffs to the three specialists. -/
def triage_agent : AgentCfg :=
  { name := "Triage Agent",
    instructions := "You are the FIRST POINT OF CONTACT. Classify the user’s issue as billing, technical, or general, then delegate by calling exactly one of the transfer functions.",
    output_guardrails := [no_apology_guardrail],
    handoffs := ["Billing Agent", "Technical Agent", "General Agent"] }

/-- Every agent defined in src/main.py. -/
def all_agents : List AgentCfg :=
  [triage_agent, billing_agent, technical_agent, general_agent]

/-- The statement `ctx = SupportContext(name=name, is_premium_user=is_premium)`,
src/main.py line 154: `issue_type` takes its default `None`. -/
def initial_ctx (n : String) (is_premium : Bool) : SupportContext :=
  { name := n, is_premium_user := is_premium, issue_type := none }

/-- The statement `ctx.issue_type = None` (Reset before each triage), src/main.py
line 162: the only assignment to `issue_type` in the program. -/
def reset_before_triage (ctx : SupportContext) : SupportContext :=
  { ctx with issue_type := none }

/-- The context states reachable by the assignments in src/main.py itself:
construction at line 154 and the per-request reset at line 162. No other
statement in the program writes `issue_type`, `name` or `is_premium_user`
(the tool handlers only read the context, and no tool or instruction writes
the context back). -/
inductive ReachableCtx : SupportContext → Prop
  | init (n : String) (p : Bool) : ReachableCtx (initial_ctx n p)
  | reset (ctx : SupportContext) : ReachableCtx ctx → ReachableCtx (reset_before_triage ctx)

/-- Modelled from the spec (section 3, HandoffDecision and section 4.4):
the Router's structured output names one target responder and carries the
classification category that the Router is contracted to write into the
SharedContext. The Router itself runs inside the external SDK. -/
structure HandoffDecision where
  target : String
  category : String
deriving Repr, DecidableEq

/-- Modelled from the spec (sections 4.4 and 3): classification writes the
category into the shared context. -/
def set_category (ctx : SupportContext) (c : String) : SupportContext :=
  { ctx with issue_type := some c }

/-- Modelled from the spec (section 6): the external Inference Provider, as
consumed by the Router, the Responders and the Guardrail Validator. The
provider is abstract: `classify` is the Router invocation on the raw message
(`none` models a malformed classification), `respond` produces a candidate
answer from the instructions handed to the responder and the attempt index,
and `check_apology` is the secondary apology classification used by
`no_apology_guardrail`. -/
structure Provider where
  classify : String → Option HandoffDecision
  respond : String → Nat → String
  check_apology : String → ApologyCheckOutput

/-- Modelled from the spec (section 4.1): the states of the Handoff
Controller. -/
inductive CState where
  | STARTED
  | CLASSIFYING
  | DELEGATING
  | EXECUTING
  | VALIDATING
  | RETRYING
  | ACCEPTED
  | FAILED
  | DONE
deriving Repr, DecidableEq

/-- The observable outcome of one request: the ordered state trace, the
state-annotated context trace, the instruction strings of each responder
invocation, and the released answer (if any). -/
structure RunResult where
  trace : List CState
  ctx_trace : List (CState × SupportContext)
  invocations : List String
  final : Option String
deriving Repr, DecidableEq

/-- Modelled from the spec (section 4.1, VALIDATING → RETRYING): the added
instruction note naming the failure reason with which the same responder is
re-invoked. -/
def retry_note (reason : String) : String :=
  " Note: your previous answer failed a guardrail: " ++ reason

/-- Modelled from the spec (sections 4.1 and 7): the EXECUTING/VALIDATING
loop of the Handoff Controller. The responder produces a candidate answer,
the guardrail validates it; on pass the answer is accepted, on fail the
controller either retries with the failure note added to the instructions
(while retries remain) or fails the request. -/
def exec_loop (p : Provider) (ctx : SupportContext) (instr : String)
    (attempt : Nat) (retries_left : Nat) : RunResult :=
  let answer := p.respond instr attempt
  let verdict := no_apology_guardrail (p.check_apology answer)
  if guardrail_passed verdict then
    { trace := [CState.EXECUTING, CState.VALIDATING, CState.ACCEPTED],
      ctx_trace := [(CState.EXECUTING, ctx), (CState.VALIDATING, ctx), (CState.ACCEPTED, ctx)],
      invocations := [instr],
      final := some answer }
  else
    match retries_left with
    | 0 =>
      { trace := [CState.EXECUTING, CState.VALIDATING, CState.FAILED],
        ctx_trace := [(CState.EXECUTING, ctx), (CState.VALIDATING, ctx), (CState.FAILED, ctx)],
        invocations := [instr],
        final := none }
    | n + 1 =>
      let rest := exec_loop p ctx (instr ++ retry_note verdict.output_info.reasoning)
        (attempt + 1) n
      { trace := CState.EXECUTING :: CState.VALIDATING :: CState.RETRYING :: rest.trace,
        ctx_trace := (CState.EXECUTING, ctx) :: (CState.VALIDATING, ctx) ::
          (CState.RETRYING, ctx) :: rest.ctx_trace,
        invocations := instr :: rest.invocations,
        final := rest.final }

/-- Modelled from the spec (section 4.1): one full request through the
Handoff Controller. Classification either fails the request (malformed
Router output) or yields a handoff decision whose category is written into
the context before the responder executes with the retry budget
`max_retries`. -/
def run_request (p : Provider) (ctx : SupportContext) (msg : String)
    (instr : String) (max_retries : Nat) : RunResult :=
  match p.classify msg with
  | none =>
    { trace := [CState.STARTED, CState.CLASSIFYING, CState.FAILED, CState.DONE],
      ctx_trace := [(CState.STARTED, ctx), (CState.CLASSIFYING, ctx),
        (CState.FAILED, ctx), (CState.DONE, ctx)],
      invocations := [],
      final := none }
  | some d =>
    let ctx1 := set_category ctx d.category
    let inner := exec_loop p ctx1 instr 0 max_retries
    { trace := CState.STARTED :: CState.CLASSIFYING :: CState.DELEGATING :: (inner.trace ++ [CState.DONE]),
      ctx_trace := (CState.STARTED, ctx) :: (CState.CLASSIFYING, ctx) ::
        (CState.DELEGATING, ctx1) :: (inner.ctx_trace ++ [(CState.DONE, ctx1)]),
      invocations := inner.invocations,
      final := inner.final }

/-- Modelled from the spec (section 4.1): the retry budget is
policy-configured with a default of 1 retry. -/
def default_max_retries : Nat := 1

/-- The linear paths the EXECUTING/VALIDATING segment of a request may take:
accept, fail, or one bounded retry round followed by another such path
(spec section 4.1). -/
inductive LoopPath : List CState → Prop
  | accept : LoopPath [CState.EXECUTING, CState.VALIDATING, CState.ACCEPTED]
  | fail : LoopPath [CState.EXECUTING, CState.VALIDATING, CState.FAILED]
  | retry (p : List CState) : LoopPath p →
      LoopPath (CState.EXECUTING :: CState.VALIDATING :: CState.RETRYING :: p)

/-- Scenario A context from the spec: privileged caller. -/
def ana : SupportContext :=
  { name := "Ana", is_premium_user := true, issue_type := none }

/-- Scenario B context from the spec: non-privileged caller. -/
def bo : SupportContext :=
  { name := "Bo", is_premium_user := false, issue_type := none }

/-- A context whose request has been classified as technical. -/
def bo_technical : SupportContext :=
  { name := "Bo", is_premium_user := false, issue_type := some "technical" }

/-- A provider whose responder answers always trip the apology guardrail. -/
def failing_provider : Provider :=
  { classify := fun _ => some { target := "Billing Agent", category := "billing" },
    respond := fun _ _ => "I apologize, I cannot help with that.",
    check_apology := fun _ => { has_apology := true, reasoning := "apology language found" } }

/-- A provider whose responder answers always pass the apology guardrail. -/
def passing_provider : Provider :=
  { classify := fun _ => some { target := "Billing Agent", category := "billing" },
    respond := fun _ _ => "Your refund is on its way.",
    check_apology := fun _ => { has_apology := false, reasoning := "no apology" } }

theorem exec_loop_loopPath (p : Provider) (ctx : SupportContext) (instr : String)
    (attempt n : Nat) : LoopPath (exec_loop p ctx instr attempt n).trace := by
  induction n generalizing instr attempt with
  | zero =>
    rw [exec_loop]
    by_cases h : guardrail_passed (no_apology_guardrail (p.check_apology (p.respond instr attempt))) = true
    · simp only [h, if_true]
      exact LoopPath.accept
    · simp only [h, if_false, Bool.false_eq_true]
      exact LoopPath.fail
  | succ n ih =>
    rw [exec_loop]
    by_cases h : guardrail_passed (no_apology_guardrail (p.check_apology (p.respond instr attempt))) = true
    · simp only [h, if_true]
      exact LoopPath.accept
    · simp only [h, if_false, Bool.false_eq_true]
      exact LoopPath.retry _ (ih _ _)

theorem loopPath_terminal (t : List CState) (h : LoopPath t) :
    t.count CState.ACCEPTED + t.count CState.FAILED = 1 := by
  induction h with
  | accept => decide
  | fail => decide
  | retry q hq ih =>
    simp [List.count_cons]
    omega

theorem exec_loop_final_passed (p : Provider) (ctx : SupportContext) (instr : String)
    (attempt n : Nat) (ans : String)
    (h : (exec_loop p ctx instr attempt n).final = some ans) :
    (p.check_apology ans).has_apology = false := by
  induction n generalizing instr attempt with
  | zero =>
    rw [exec_loop] at h
    by_cases hg : guardrail_passed (no_apology_guardrail (p.check_apology (p.respond instr attempt))) = true
    · simp only [hg, if_true, Option.some.injEq] at h
      subst h
      simpa [guardrail_passed, no_apology_guardrail] using hg
    · simp only [hg, if_false, Bool.false_eq_true] at h
      exact absurd h (by simp)
  | succ n ih =>
    rw [exec_loop] at h
    by_cases hg : guardrail_passed (no_apology_guardrail (p.check_apology (p.respond instr attempt))) = true
    · simp only [hg, if_true, Option.some.injEq] at h
      subst h
      simpa [guardrail_passed, no_apology_guardrail] using hg
    · simp only [hg, if_false, Bool.false_eq_true] at h
      exact ih _ _ h

theorem exec_loop_ctx_mem (p : Provider) (ctx : SupportContext) (instr : String)
    (attempt n : Nat) :
    ∀ s c, (s, c) ∈ (exec_loop p ctx instr attempt n).ctx_trace →
      c = ctx ∧ s ≠ CState.STARTED ∧ s ≠ CState.CLASSIFYING := by
  induction n generalizing instr attempt with
  | zero =>
    intro s c hmem
    rw [exec_loop] at hmem
    by_cases hg : guardrail_passed (no_apology_guardrail (p.check_apology (p.respond instr attempt))) = true
    · simp only [hg, if_true, List.mem_cons, List.mem_singleton, Prod.mk.injEq,
        List.not_mem_nil, or_false] at hmem
      rcases hmem with ⟨hs, hc⟩ | ⟨hs, hc⟩ | ⟨hs, hc⟩ <;> subst hs <;> subst hc <;>
        exact ⟨rfl, by simp, by simp⟩
    · simp only [hg, if_false, Bool.false_eq_true, List.mem_cons, List.mem_singleton,
        Prod.mk.injEq, List.not_mem_nil, or_false] at hmem
      rcases hmem with ⟨hs, hc⟩ | ⟨hs, hc⟩ | ⟨hs, hc⟩ <;> subst hs <;> subst hc <;>
        exact ⟨rfl, by simp, by simp⟩
  | succ n ih =>
    intro s c hmem
    rw [exec_loop] at hmem
    by_cases hg : guardrail_passed (no_apology_guardrail (p.check_apology (p.respond instr attempt))) = true
    · simp only [hg, if_true, List.mem_cons, List.mem_singleton, Prod.mk.injEq,
        List.not_mem_nil, or_false] at hmem
      rcases hmem with ⟨hs, hc⟩ | ⟨hs, hc⟩ | ⟨hs, hc⟩ <;> subst hs <;> subst hc <;>
        exact ⟨rfl, by simp, by simp⟩
    · simp only [hg, if_false, Bool.false_eq_true, List.mem_cons, Prod.mk.injEq] at hmem
      rcases hmem with ⟨hs, hc⟩ | ⟨hs, hc⟩ | ⟨hs, hc⟩ | hrest
      · subst hs; subst hc; exact ⟨rfl, by simp, by simp⟩
      · subst hs; subst hc; exact ⟨rfl, by simp, by simp⟩
      · subst hs; subst hc; exact ⟨rfl, by simp, by simp⟩
      · exact ih _ _ s c hrest

/-- C1: with the retry budget at its policy-configured default of 1, a
request whose responder's candidate answer always fails the guardrail is
re-invoked exactly once with the failure-reason note appended to its
instructions, terminates in FAILED, and the EXECUTING/VALIDATING loop is
never entered a third time. -/
theorem guardrail_retry_bound (p : Provider) (ctx : SupportContext) (msg instr : String)
    (d : HandoffDecision) (hd : p.classify msg = some d)
    (hfail : ∀ s, (p.check_apology s).has_apology = true) :
    (run_request p ctx msg instr default_max_retries).trace =
      [CState.STARTED, CState.CLASSIFYING, CState.DELEGATING, CState.EXECUTING,
       CState.VALIDATING, CState.RETRYING, CState.EXECUTING, CState.VALIDATING,
       CState.FAILED, CState.DONE] ∧
    (run_request p ctx msg instr default_max_retries).final = none ∧
    (run_request p ctx msg instr default_max_retries).invocations =
      [instr, instr ++ retry_note (p.check_apology (p.respond instr 0)).reasoning] ∧
    (run_request p ctx msg instr default_max_retries).trace.count CState.EXECUTING = 2 := by
  refine ⟨?_, ?_, ?_, ?_⟩ <;>
    simp [run_request, hd, default_max_retries, exec_loop, guardrail_passed,
      no_apology_guardrail, hfail, retry_note, List.count_cons]

theorem guardrail_retry_bound_witness :
    failing_provider.classify "I want a refund" =
      some { target := "Billing Agent", category := "billing" } ∧
    (run_request failing_provider bo "I want a refund" "Handle billing."
      default_max_retries).trace.count CState.EXECUTING = 2 :=
  ⟨rfl, (guardrail_retry_bound failing_provider bo "I want a refund" "Handle billing."
    { target := "Billing Agent", category := "billing" } rfl (fun _ => rfl)).2.2.2⟩

/-- C2: the refund capability's enablement predicate is exactly the
context's `is_premium_user` flag; when the flag is false the capability is
absent from the gated view, and when it is true it is present. -/
theorem refund_gating (ctx : SupportContext) :
    is_enabled ToolName.refund ctx = ctx.is_premium_user ∧
    (ctx.is_premium_user = false → ToolName.refund ∉ gated_view run_tools ctx) ∧
    (ctx.is_premium_user = true → ToolName.refund ∈ gated_view run_tools ctx) := by
  refine ⟨rfl, ?_, ?_⟩ <;> intro h <;>
    simp [gated_view, run_tools, is_enabled, h, List.mem_filter]

theorem refund_gating_witness :
    bo.is_premium_user = false ∧ ToolName.refund ∉ gated_view run_tools bo ∧
    ana.is_premium_user = true ∧ ToolName.refund ∈ gated_view run_tools ana :=
  ⟨rfl, (refund_gating bo).2.1 rfl, rfl, (refund_gating ana).2.2 rfl⟩

/-- C3: the gated capability view computed for a responder contains no
capability outside that responder's declared capability list, whatever the
enablement predicates evaluate to. -/
theorem gated_view_subset (caps : List ToolName) (ctx : SupportContext) (t : ToolName)
    (h : t ∈ gated_view caps ctx) : t ∈ caps :=
  List.mem_of_mem_filter h

theorem gated_view_subset_witness :
    ToolName.general_info ∈ gated_view run_tools bo ∧ ToolName.general_info ∈ run_tools :=
  ⟨by decide, gated_view_subset run_tools bo ToolName.general_info (by decide)⟩

/-- C4: the restart_service capability is enabled exactly when the context's
`issue_type` equals "technical" at the instant of evaluation; the gated view
is a function of the current context, so across two requests whose contexts
differ on that field, the capability's visibility differs accordingly. -/
theorem restart_service_fresh (ctx ctxN : SupportContext)
    (h : ctx.issue_type ≠ some "technical") (hN : ctxN.issue_type = some "technical") :
    (∀ c : SupportContext, is_enabled ToolName.restart_service c = true ↔
      c.issue_type = some "technical") ∧
    ToolName.restart_service ∉ gated_view run_tools ctx ∧
    ToolName.restart_service ∈ gated_view run_tools ctxN := by
  refine ⟨fun c => ?_, ?_, ?_⟩
  · simp [is_enabled]
  · simp [gated_view, run_tools, is_enabled, List.mem_filter, h]
  · simp [gated_view, run_tools, is_enabled, List.mem_filter, hN]

theorem restart_service_fresh_witness :
    bo.issue_type ≠ some "technical" ∧ bo_technical.issue_type = some "technical" ∧
    ToolName.restart_service ∉ gated_view run_tools bo ∧
    ToolName.restart_service ∈ gated_view run_tools bo_technical :=
  ⟨by decide, rfl,
    (restart_service_fresh bo bo_technical (by decide) rfl).2.1,
    (restart_service_fresh bo bo_technical (by decide) rfl).2.2⟩

/-- C5: the only assignments the program itself performs on
`issue_type` are its construction default `None` and the reset to `None`
before each triage, so in every context state reachable by the program's
own code `issue_type` is `none` and the restart_service capability is never
enabled. -/
theorem issue_type_never_set (ctx : SupportContext) (h : ReachableCtx ctx) :
    ctx.issue_type = none ∧ is_enabled ToolName.restart_service ctx = false := by
  induction h with
  | init n p => exact ⟨rfl, rfl⟩
  | reset c hc ih => exact ⟨rfl, rfl⟩

theorem issue_type_never_set_witness :
    ReachableCtx (initial_ctx "User" false) ∧
    is_enabled ToolName.restart_service (initial_ctx "User" false) = false :=
  ⟨ReachableCtx.init "User" false,
    (issue_type_never_set (initial_ctx "User" false) (ReachableCtx.init "User" false)).2⟩

/-- C6: the guardrail's tripwire is triggered exactly when the apology
classifier reports `has_apology`, the verdict passes exactly when the
classifier reports no violation (`passed = !violationDetected`), and a list
of guardrails yields exactly one verdict per guardrail. -/
theorem guardrail_verdict_mapping (out : ApologyCheckOutput)
    (gs : List (ApologyCheckOutput → GuardrailFunctionOutput)) :
    (no_apology_guardrail out).tripwire_triggered = out.has_apology ∧
    guardrail_passed (no_apology_guardrail out) = !out.has_apology ∧
    (guardrail_passed (no_apology_guardrail out) = true ↔ out.has_apology = false) ∧
    (run_guardrails gs out).length = gs.length := by
  refine ⟨rfl, rfl, ?_, ?_⟩
  · simp [guardrail_passed, no_apology_guardrail]
  · simp [run_guardrails]

/-- C7: every agent defined in the program (the triage router and the three
specialists) carries the no-apology guardrail, and the controller releases a
final answer only if that answer passed the guardrail check: the caller
never receives an unvalidated answer. -/
theorem no_release_without_guardrail (p : Provider) (ctx : SupportContext)
    (msg instr : String) (budget : Nat) (ans : String)
    (hfin : (run_request p ctx msg instr budget).final = some ans) :
    (p.check_apology ans).has_apology = false ∧
    ∀ a ∈ all_agents, a.output_guardrails = [no_apology_guardrail] := by
  constructor
  · rcases hc : p.classify msg with _ | d
    · rw [run_request] at hfin
      rw [hc] at hfin
      simp at hfin
    · rw [run_request] at hfin
      rw [hc] at hfin
      exact exec_loop_final_passed p _ instr 0 budget ans hfin
  · intro a ha
    simp only [all_agents, List.mem_cons, List.not_mem_nil, or_false] at ha
    rcases ha with h | h | h | h <;> subst h <;> rfl

theorem no_release_without_guardrail_witness :
    (run_request passing_provider ana "refund please" "Handle billing." 1).final =
      some "Your refund is on its way." ∧
    (passing_provider.check_apology "Your refund is on its way.").has_apology = false :=
  ⟨rfl, (no_release_without_guardrail passing_provider ana "refund please" "Handle billing."
    1 "Your refund is on its way." rfl).1⟩

theorem run_request_ctx_mem (p : Provider) (ctx0 : SupportContext) (msg instr : String)
    (budget : Nat) (s : CState) (c : SupportContext)
    (hmem : (s, c) ∈ (run_request p ctx0 msg instr budget).ctx_trace) :
    (c = ctx0 ∧ (s = CState.STARTED ∨ s = CState.CLASSIFYING ∨
      (s = CState.FAILED ∧ p.classify msg = none) ∨
      (s = CState.DONE ∧ p.classify msg = none))) ∨
    (∃ d, p.classify msg = some d ∧ c = set_category ctx0 d.category ∧
      s ≠ CState.STARTED ∧ s ≠ CState.CLASSIFYING) := by
  rcases hc : p.classify msg with _ | d
  · left
    rw [run_request] at hmem
    rw [hc] at hmem
    simp only [List.mem_cons, Prod.mk.injEq, List.not_mem_nil, or_false] at hmem
    rcases hmem with ⟨hs, hcc⟩ | ⟨hs, hcc⟩ | ⟨hs, hcc⟩ | ⟨hs, hcc⟩ <;> subst hs <;> subst hcc <;>
      simp [hc]
  · rw [run_request] at hmem
    rw [hc] at hmem
    simp only [List.mem_cons, List.mem_append, List.mem_singleton, Prod.mk.injEq,
      List.not_mem_nil, or_false] at hmem
    rcases hmem with ⟨hs, hcc⟩ | ⟨hs, hcc⟩ | ⟨hs, hcc⟩ | hin | ⟨hs, hcc⟩
    · left; subst hs; subst hcc; simp
    · left; subst hs; subst hcc; simp
    · right; subst hs; subst hcc; exact ⟨d, rfl, rfl, by decide, by decide⟩
    · right
      obtain ⟨hcc, hs1, hs2⟩ :=
        exec_loop_ctx_mem p (set_category ctx0 d.category) instr 0 budget s c hin
      exact ⟨d, rfl, hcc, hs1, hs2⟩
    · right; subst hs; subst hcc; exact ⟨d, rfl, rfl, by decide, by decide⟩

/-- C8: `issue_type` is `none` from the moment a request begins until the
router's classification completes, is never reset mid-request (after
classification it stays at the classified category for the rest of the
request), is reset to `none` only by the caller's per-request reset, and the
reset touches no other field of the session-scoped context. -/
theorem issue_type_lifecycle (p : Provider) (ctx0 : SupportContext) (msg instr : String)
    (budget : Nat) (h0 : ctx0.issue_type = none) :
    (∀ c : SupportContext, (reset_before_triage c).issue_type = none ∧
      (reset_before_triage c).name = c.name ∧
      (reset_before_triage c).is_premium_user = c.is_premium_user) ∧
    (∀ s c, (s, c) ∈ (run_request p ctx0 msg instr budget).ctx_trace →
      c.name = ctx0.name ∧ c.is_premium_user = ctx0.is_premium_user) ∧
    (∀ c, (CState.STARTED, c) ∈ (run_request p ctx0 msg instr budget).ctx_trace →
      c.issue_type = none) ∧
    (∀ c, (CState.CLASSIFYING, c) ∈ (run_request p ctx0 msg instr budget).ctx_trace →
      c.issue_type = none) ∧
    (∀ d, p.classify msg = some d →
      ∀ s c, (s, c) ∈ (run_request p ctx0 msg instr budget).ctx_trace →
        s ≠ CState.STARTED → s ≠ CState.CLASSIFYING →
        c.issue_type = some d.category) := by
  refine ⟨fun c => ⟨rfl, rfl, rfl⟩, ?_, ?_, ?_, ?_⟩
  · intro s c hmem
    rcases run_request_ctx_mem p ctx0 msg instr budget s c hmem with
      ⟨hcc, _⟩ | ⟨d, _, hcc, _, _⟩
    · subst hcc; exact ⟨rfl, rfl⟩
    · subst hcc; exact ⟨rfl, rfl⟩
  · intro c hmem
    rcases run_request_ctx_mem p ctx0 msg instr budget CState.STARTED c hmem with
      ⟨hcc, _⟩ | ⟨d, _, _, hs, _⟩
    · subst hcc; exact h0
    · exact absurd rfl hs
  · intro c hmem
    rcases run_request_ctx_mem p ctx0 msg instr budget CState.CLASSIFYING c hmem with
      ⟨hcc, _⟩ | ⟨d, _, _, _, hs⟩
    · subst hcc; exact h0
    · exact absurd rfl hs
  · intro d hd s c hmem hs1 hs2
    rcases run_request_ctx_mem p ctx0 msg instr budget s c hmem with
      ⟨hcc, hdisj⟩ | ⟨d', hd', hcc, _, _⟩
    · rcases hdisj with h | h | ⟨_, hnone⟩ | ⟨_, hnone⟩
      · exact absurd h hs1
      · exact absurd h hs2
      · rw [hd] at hnone; exact absurd hnone (by simp)
      · rw [hd] at hnone; exact absurd hnone (by simp)
    · rw [hd] at hd'
      obtain rfl : d = d' := by injection hd'
      subst hcc
      rfl

theorem issue_type_lifecycle_witness :
    ana.issue_type = none ∧ (reset_before_triage ana).issue_type = none :=
  ⟨rfl, ((issue_type_lifecycle failing_provider ana "help" "Triage." 1 rfl).1 ana).1⟩

/-- C9: every request's state trace is exactly one linear path through the
controller state machine — either the classification-failure path or
classification, delegation and one EXECUTING/VALIDATING loop path (the only
revisited states being the bounded retry loop) — and the trace contains
exactly one terminal ACCEPTED or FAILED state. -/
theorem controller_linear_path (p : Provider) (ctx : SupportContext) (msg instr : String)
    (budget : Nat) :
    ((run_request p ctx msg instr budget).trace =
        [CState.STARTED, CState.CLASSIFYING, CState.FAILED, CState.DONE] ∨
      ∃ body, LoopPath body ∧
        (run_request p ctx msg instr budget).trace =
          CState.STARTED :: CState.CLASSIFYING :: CState.DELEGATING ::
            (body ++ [CState.DONE])) ∧
    (run_request p ctx msg instr budget).trace.count CState.ACCEPTED +
      (run_request p ctx msg instr budget).trace.count CState.FAILED = 1 := by
  rcases hc : p.classify msg with _ | d
  · have htr : (run_request p ctx msg instr budget).trace =
        [CState.STARTED, CState.CLASSIFYING, CState.FAILED, CState.DONE] := by
      rw [run_request]; rw [hc]
    constructor
    · exact Or.inl htr
    · rw [htr]; decide
  · have htr : (run_request p ctx msg instr budget).trace =
        CState.STARTED :: CState.CLASSIFYING :: CState.DELEGATING ::
          ((exec_loop p (set_category ctx d.category) instr 0 budget).trace ++
            [CState.DONE]) := by
      rw [run_request]; rw [hc]
    have hterm := loopPath_terminal _
      (exec_loop_loopPath p (set_category ctx d.category) instr 0 budget)
    constructor
    · exact Or.inr ⟨_, exec_loop_loopPath p (set_category ctx d.category) instr 0 budget, htr⟩
    · rw [htr]
      simp [List.count_cons, List.count_append]
      omega

/-- C10: every tool handler leaves the context's `issue_type`, `name` and
`is_premium_user` fields unchanged: it only reads the context and returns a
result payload. -/
theorem tool_handlers_frame (t : ToolName) (ctx : SupportContext) :
    (tool_handler t ctx).1.issue_type = ctx.issue_type ∧
    (tool_handler t ctx).1.name = ctx.name ∧
    (tool_handler t ctx).1.is_premium_user = ctx.is_premium_user := by
  cases t <;> exact ⟨rfl, rfl, rfl⟩
